import Mathlib

/- The Batteries rational-number operations are `@[irreducible]`, which blocks
`decide`/`rfl` evaluation of the exact-rational pixel arithmetic below.  The
kernel itself reduces them fine; we only restore the default reducibility so
that concrete witnesses can be checked by evaluation. -/
set_option allowUnsafeReducibility true in
attribute [semireducible] Rat.add Rat.sub Rat.mul Rat.inv Rat.div Rat.neg

/-!
Shallow embedding of the render core (`vendor/src/render_core.py`) and proofs
about it.  Pixels are 8-bit channel values (`Fin 256`, four channels in BGRA
order); floating-point arithmetic in the source is modelled with exact
rationals, and the `astype(np.uint8)` conversion is modelled as truncation
toward zero followed by the wrap modulo 256 that numpy performs.  The external
OpenCV primitives (`cv2.resize`, `cv2.warpAffine` via `getRotationMatrix2D`)
are taken as parameters of the embedding, since their pixel semantics live
outside the repository; everything else is translated line by line from the
Python source.
-/

namespace RenderCore

/-- 8-bit channel value. -/
abbrev U8 := Fin 256

/-- `astype(np.uint8)` applied to a nonnegative float value: truncation toward
zero (for nonnegative rationals, `floor`), wrapped modulo 256. -/
def toU8 (q : ℚ) : U8 := ⟨q.floor.toNat % 256, Nat.mod_lt _ (by norm_num)⟩

/-- A BGRA raster: height, width, and a channel function (y, x, channel).
Channel 0,1,2 are B,G,R and channel 3 is alpha, matching the source's
`cv2.IMREAD_UNCHANGED` layout. -/
structure Img where
  h : ℕ
  w : ℕ
  pix : ℕ → ℕ → ℕ → U8

/-- `_solid_bg`: BGRA canvas with all colour channels 16 and alpha 255. -/
def solid_bg (w h : ℕ) : Img :=
  { h := h, w := w,
    pix := fun _ _ c => if c < 3 then (16 : U8) else if c = 3 then 255 else 0 }

/-- Python truthiness of an optional string (`None` and `""` are falsy). -/
def optTruthy (o : Option String) : Bool :=
  match o with
  | none => false
  | some s => !(s == "")

/-- Python `a or default` for an optional string `a` (both `None` and `""`
fall through to the default). -/
def pyOr (o : Option String) (d : String) : String :=
  match o with
  | none => d
  | some s => if s = "" then d else s

/-- `str.lower`, restricted to the ASCII case mapping that the labels in the
atlas use. -/
def pyLower (s : String) : String := ⟨s.data.map Char.toLower⟩

/-- Helper for `basename`: keeps the characters seen since the last `/`. -/
def basenameChars : List Char → List Char → List Char
  | [], acc => acc.reverse
  | c :: rest, acc =>
    if c = '/' then basenameChars rest [] else basenameChars rest (c :: acc)

/-- `os.path.basename` (POSIX): the substring after the last `/`. -/
def basename (s : String) : String := ⟨basenameChars s.data []⟩

/-- `.replace("\\", "/")` on a path (the pattern is a single character). -/
def replaceBackslash : List Char → List Char
  | [] => []
  | c :: rest => (if c = '\\' then '/' else c) :: replaceBackslash rest

/-- `os.path.join` (POSIX) for the two-argument form used by the source. -/
def pathJoin (a b : String) : String :=
  if b.data.head? = some '/' then b
  else if a = "" then b
  else if a.data.getLast? = some '/' then a ++ b
  else a ++ "/" ++ b

/-- The `view_rules` mapping passed to `_select_view`.  `is_dict := false`
models a non-dict value; `thr_front := none` models a dict without the
`"thr_front"` key; `has_buckets` models the presence of the `"buckets"` key. -/
structure ViewRules where
  is_dict : Bool := true
  thr_front : Option ℚ := none
  has_buckets : Bool := false

/-- `_select_view`: bucket a yaw angle into `"front"`, `"right30"` or
`"left30"`.  Both branches of the Python `if` have the same body (the
`"buckets"` scheme is not implemented there); the structure is kept. -/
def select_view (yaw_deg : ℚ) (rules : ViewRules) : String :=
  let thr : ℚ := if rules.is_dict then rules.thr_front.getD 16 else 16
  if !rules.is_dict || !rules.has_buckets then
    if |yaw_deg| ≤ thr then "front"
    else if yaw_deg > 0 then "right30" else "left30"
  else
    if |yaw_deg| ≤ thr then "front"
    else if yaw_deg > 0 then "right30" else "left30"

/-- `_normalize_mouth`. -/
def normalize_mouth (mouth : String) : String :=
  if mouth = "" then "closed"
  else
    let m := pyLower mouth
    if m = "close" ∨ m = "mouth_close" then "closed" else m

/-- The normalized atlas index produced by `load_atlas_index`: `views` is the
view → mouth → relative-path table; the `fallback`, `expression_labels` and
`expression_default` entries are passed through (`none` models an absent
key). -/
structure Atlas where
  views : List (String × List (String × String)) := []
  view_rules : ViewRules := {}
  fallback_view : Option String := none
  fallback_mouth : Option String := none
  expression_labels : List String := []
  expression_default : Option String := none

/-- `views.get(view, {}).get(mouth)`. -/
def viewsLookup (views : List (String × List (String × String)))
    (view mouth : String) : Option String :=
  (views.lookup view).bind fun vd => vd.lookup mouth

/-- `_resolve_base_sprite_path`: look up `views[view][mouth]`, falling back to
the atlas's `fallback` view/mouth when the entry is absent or falsy.
Returns `(path_rel or None, used_fallback)`. -/
def resolve_base_sprite_path (atlas : Atlas) (view mouth : String) :
    Option String × Bool :=
  let path_rel := viewsLookup atlas.views view mouth
  if optTruthy path_rel then (path_rel, false)
  else
    let fb_view := atlas.fallback_view.getD "front"
    let fb_mouth := normalize_mouth (atlas.fallback_mouth.getD "closed")
    (viewsLookup atlas.views fb_view fb_mouth, true)

/-- `_derive_expression_path`: derive `<expr>_<view>/<basename(base)>` from an
expression label, or return the base path for `normal`/unknown labels.
The `mouth` parameter is unused, as in the source. -/
def derive_expression_path (atlas : Atlas) (view mouth : String)
    (expression : Option String) (base_path_rel : String) : String :=
  let expr_default := pyLower (atlas.expression_default.getD "normal")
  let expr := pyLower (pyOr expression expr_default)
  if expr = "normal" ∨ expr = "" then base_path_rel
  else
    let labels := atlas.expression_labels.map pyLower
    if labels ≠ [] ∧ expr ∉ labels then base_path_rel
    else
      let base_name := basename base_path_rel
      let expr_dir := expr ++ "_" ++ view
      ⟨replaceBackslash (expr_dir ++ "/" ++ base_name).data⟩

/-- What the file system holds at a path: nothing, a file that `cv2.imread`
cannot decode (it returns `None`), or a decodable image. -/
inductive FileStatus where
  | absent
  | corrupt
  | image (img : Img)

/-- The file system seen by `_load_rgba`. -/
def FileSystem := String → FileStatus

/-- The only exception `_load_rgba` raises. -/
inductive LoadError where
  | fileNotFound (path : String)
deriving DecidableEq

/-- `_load_rgba`: raises `FileNotFoundError(path)` when the path does not
exist **and also** when `cv2.imread` returns `None` (corrupt or unsupported
image data) — the source uses the same exception for both.  The
grayscale/3-channel promotion only normalizes already-decoded data and is
absorbed into `FileStatus.image`. -/
def load_rgba (fs : FileSystem) (path : String) : Except LoadError Img :=
  match fs path with
  | .absent => .error (.fileNotFound path)
  | .corrupt => .error (.fileNotFound path)
  | .image img => .ok img

/-- `_alpha_paste`: alpha-blend `src_bgra` onto `canvas_bgra` centred at
`(cx, cy)`, clipping against the canvas bounds; only the colour channels
(`c < 3`) of the overlapping region are written.  Exactly mirrors the ROI
arithmetic of the source (`x0 = cx - sw // 2`, …); the two unused `x1`/`y1`
bindings of the source are dropped. -/
def alpha_paste (canvas_bgra src_bgra : Img) (cx cy : ℤ) : Img :=
  let h : ℤ := canvas_bgra.h
  let w : ℤ := canvas_bgra.w
  let sh : ℤ := src_bgra.h
  let sw : ℤ := src_bgra.w
  let x0 := cx - sw / 2
  let y0 := cy - sh / 2
  let sx0 := max 0 (-x0)
  let sy0 := max 0 (-y0)
  let dx0 := max 0 x0
  let dy0 := max 0 y0
  let sw2 := min (sw - sx0) (w - dx0)
  let sh2 := min (sh - sy0) (h - dy0)
  if sw2 ≤ 0 ∨ sh2 ≤ 0 then canvas_bgra
  else
    { canvas_bgra with
      pix := fun y x c =>
        if dy0 ≤ (y : ℤ) ∧ (y : ℤ) < dy0 + sh2 ∧
           dx0 ≤ (x : ℤ) ∧ (x : ℤ) < dx0 + sw2 ∧ c < 3 then
          let sy := ((y : ℤ) - dy0 + sy0).toNat
          let sx := ((x : ℤ) - dx0 + sx0).toNat
          let alpha : ℚ := ((src_bgra.pix sy sx 3).val : ℚ) / 255
          let inv_a : ℚ := 1 - alpha
          toU8 (alpha * ((src_bgra.pix sy sx c).val : ℚ) +
                inv_a * ((canvas_bgra.pix y x c).val : ℚ))
        else canvas_bgra.pix y x c }

/-- The `"rounded to 8-bit"` blend the specification describes, for one colour
channel.  Modelled from the spec's words (round to nearest), **not** from the
source, which truncates via `astype(np.uint8)`; used only to compare the two. -/
def roundedBlend_spec (alpha srcv dstv : ℚ) : U8 :=
  ⟨(round (alpha * srcv + (1 - alpha) * dstv)).toNat % 256, Nat.mod_lt _ (by norm_num)⟩

/-- The `transform_cfg` dict interpreted by `_make_pose_transform`.  A `none`
at the call site models `None`, a non-dict value, or an empty (falsy) dict,
all of which produce the no-op transform. -/
structure TransformCfg where
  enabled : Bool := false
  roll_coef : ℚ := 1
  yaw_coef : ℚ := 0
  pitch_coef : ℚ := 0

/-- `_make_pose_transform`: returns the per-sprite transform function.  The
actual rotation (`cv2.getRotationMatrix2D` + `cv2.warpAffine`) is external to
the repository and is taken as the parameter `rot` (image and combined angle);
the embedded code decides, exactly as the source does, when `rot` is applied
and when the image is returned unchanged. -/
def make_pose_transform (rot : Img → ℚ → Img) (transform_cfg : Option TransformCfg) :
    Img → ℚ → ℚ → ℚ → Img :=
  match transform_cfg with
  | none => fun img _ _ _ => img
  | some cfg => fun img_bgra yaw_deg pitch_deg roll_deg =>
    if !cfg.enabled then img_bgra
    else
      let angle := cfg.roll_coef * roll_deg + cfg.yaw_coef * yaw_deg +
        cfg.pitch_coef * pitch_deg
      if |angle| < 1 / 1000 then img_bgra
      else rot img_bgra angle

/-- `cv2.cvtColor(frame, cv2.COLOR_BGRA2BGR)`: drop the alpha channel (the
dropped channels are modelled as 0). -/
def cvtColor_BGRA2BGR (img : Img) : Img :=
  { img with pix := fun y x c => if c < 3 then img.pix y x c else 0 }

/-- One crossfade frame: `prev * (1 - alpha) + frame * alpha`, computed on all
four channels in floating point and converted back with `astype(np.uint8)`. -/
def crossfadeBlend (prev frame : Img) (alpha : ℚ) : Img :=
  { h := prev.h, w := prev.w,
    pix := fun y x c =>
      toU8 (((prev.pix y x c).val : ℚ) * (1 - alpha) +
            ((frame.pix y x c).val : ℚ) * alpha) }

/-- The crossfade/write step of the frame loop (`render_video`, the
`if crossfade_frames > 0 and prev_frame is not None and i % (fps // 2 or 1) == 0`
block): returns the frames written to the stream for this loop iteration (in
order, already converted to BGR) and the new `prev_frame`. -/
def writeStep (crossfade_frames fps i : ℕ) (prev_frame : Option Img) (frame : Img) :
    List Img × Option Img :=
  match prev_frame with
  | some prev =>
    if 0 < crossfade_frames ∧ i % (if fps / 2 = 0 then 1 else fps / 2) = 0 then
      (((List.range crossfade_frames).map fun (k : ℕ) =>
          cvtColor_BGRA2BGR
            (crossfadeBlend prev frame (((k : ℚ) + 1) / (crossfade_frames : ℚ)))),
       some frame)
    else ([cvtColor_BGRA2BGR frame], some frame)
  | none => ([cvtColor_BGRA2BGR frame], some frame)

/-- The merged per-timestamp snapshot returned by `timeline_value_fn`.
`mouth`/`expression` are optional (absent keys); `yaw`/`pitch`/`roll` model
the value extracted by `float(vals.get("yaw", vals.get("yaw_deg", 0.0)))`. -/
structure FrameVals where
  mouth : Option String := none
  yaw : ℚ := 0
  pitch : ℚ := 0
  roll : ℚ := 0
  expression : Option String := none

/-- The inputs of one `render_video` call.  `fs` is the file system the loads
run against; `rot` and `resizeFn` are the external OpenCV primitives;
`atlasIdx` is the atlas index already loaded by `load_atlas_index` (`none`
when `assets_dir`/`atlas_json_rel` are not both given). -/
structure RenderCfg where
  fs : FileSystem
  rot : Img → ℚ → Img
  resizeFn : Img → ℕ → ℕ → Img
  width : ℕ
  height : ℕ
  fps : ℕ
  duration_s : ℕ
  crossfade_frames : ℕ
  timeline : ℕ → FrameVals
  assetsDir : String
  atlasIdx : Option Atlas
  transformCfg : Option TransformCfg := none
  hook : Option (Img → ℕ → ℕ → Img) := none

/-- The loop state of `render_video`: previous frame, the `views_count`
dictionary (as its lookup-with-default-0 function), the fallback statistics,
and the frames written to the stream so far. -/
structure RenderState where
  prevFrame : Option Img := none
  viewsCount : String → ℕ := fun _ => 0
  fallbackFrames : ℕ := 0
  firstFallbackMs : Option ℕ := none
  written : List Img := []

/-- The stats record returned by `render_video`. -/
structure RenderStats where
  views : String → ℕ
  fallback_frames : ℕ
  first_fallback_ms : Option ℕ
  total_frames : ℕ
  transform_enabled : Bool

/-- `int(height * 0.58)` and friends: truncate a nonnegative rational. -/
def ratFloorNat (q : ℚ) : ℕ := q.floor.toNat

/-- `per_frame_hook` application (line 377-378 of the source). -/
def applyHook (hook : Option (Img → ℕ → ℕ → Img)) (frame : Img) (t_ms i : ℕ) : Img :=
  match hook with
  | some f => f frame t_ms i
  | none => frame

/-- Lines 320-369 of `render_video`: resolve the base sprite path, derive the
expression path, try the loads (`FileNotFoundError` falls through to the
normal-expression sprite and then to no sprite at all), resize, pose-transform
and paste.  Returns the composed frame and the `used_fallback` flag for this
frame. -/
def spriteStep (cfg : RenderCfg) (atlas : Atlas) (frame0 : Img)
    (view mouth : String) (expression : Option String)
    (yaw pitch roll : ℚ) : Img × Bool :=
  let rb := resolve_base_sprite_path atlas view mouth
  let used_fallback := false || rb.2
  if optTruthy rb.1 then
    let base_path_rel := rb.1.getD ""
    let expr_path_rel := derive_expression_path atlas view mouth expression base_path_rel
    let loaded : Option Img × Bool :=
      match load_rgba cfg.fs (pathJoin cfg.assetsDir expr_path_rel) with
      | .ok img => (some img, used_fallback)
      | .error _ =>
        if expr_path_rel ≠ base_path_rel then
          match load_rgba cfg.fs (pathJoin cfg.assetsDir base_path_rel) with
          | .ok img => (some img, true)
          | .error _ => (none, used_fallback)
        else (none, used_fallback)
    match loaded with
    | (some src, uf) =>
        let tgt_h := max 1 (ratFloorNat ((cfg.height : ℚ) * (32 / 100)))
        let scale : ℚ := (tgt_h : ℚ) / (src.h : ℚ)
        let tgt_w := max 1 (ratFloorNat ((src.w : ℚ) * scale))
        let src_rs := cfg.resizeFn src tgt_w tgt_h
        let src_rs2 := make_pose_transform cfg.rot cfg.transformCfg src_rs yaw pitch roll
        let cx : ℤ := (cfg.width / 2 : ℕ)
        let cy : ℤ := ratFloorNat ((cfg.height : ℚ) * (58 / 100))
        (alpha_paste frame0 src_rs2 cx cy, uf)
    | (none, _) => (frame0, true)
  else (frame0, used_fallback)

/-- One iteration of the frame loop of `render_video` (loop body, lines
299-392 of the source). -/
def renderFrame (cfg : RenderCfg) (st : RenderState) (i : ℕ) : RenderState :=
  let t_ms := 1000 * i / cfg.fps
  let vals := cfg.timeline t_ms
  let mouth := normalize_mouth (vals.mouth.getD "closed")
  let frame0 := solid_bg cfg.width cfg.height
  match cfg.atlasIdx with
  | none =>
      let frame3 := applyHook cfg.hook frame0 t_ms i
      let ws := writeStep cfg.crossfade_frames cfg.fps i st.prevFrame frame3
      { st with prevFrame := ws.2, written := st.written ++ ws.1 }
  | some atlas =>
      let view := select_view vals.yaw atlas.view_rules
      let viewsCount' := fun v => if v = view then st.viewsCount view + 1 else st.viewsCount v
      let sres := spriteStep cfg atlas frame0 view mouth vals.expression
        vals.yaw vals.pitch vals.roll
      let used_fallback := sres.2
      let fallbackFrames' :=
        if used_fallback then st.fallbackFrames + 1 else st.fallbackFrames
      let firstFallbackMs' :=
        if used_fallback then
          match st.firstFallbackMs with
          | none => some t_ms
          | some m => some m
        else st.firstFallbackMs
      let frame3 := applyHook cfg.hook sres.1 t_ms i
      let ws := writeStep cfg.crossfade_frames cfg.fps i st.prevFrame frame3
      { prevFrame := ws.2, viewsCount := viewsCount',
        fallbackFrames := fallbackFrames', firstFallbackMs := firstFallbackMs',
        written := st.written ++ ws.1 }

/-- `render_video`: the full frame loop.  Returns the frames written to the
output stream (in order) and the stats record.  The embedding is total: every
`_load_rgba` call in the loop sits under a `try/except FileNotFoundError`, and
`FileNotFoundError` is the only exception `_load_rgba` raises. -/
def render_video (cfg : RenderCfg) : List Img × RenderStats :=
  let total_frames := cfg.duration_s * cfg.fps
  let fin := (List.range total_frames).foldl (renderFrame cfg) {}
  (fin.written,
    { views := fin.viewsCount,
      fallback_frames := fin.fallbackFrames,
      first_fallback_ms := fin.firstFallbackMs,
      total_frames := total_frames,
      transform_enabled :=
        match cfg.transformCfg with
        | some c => c.enabled
        | none => false })

/-- The sum of the `views` counts over the three buckets `_select_view` can
produce (the `views_count` dictionary only ever holds these keys). -/
def viewsSum (vc : String → ℕ) : ℕ := vc "front" + vc "left30" + vc "right30"

/-! ## Concrete test fixtures used by the witnesses and counterexamples -/

/-- A 1×1 fully opaque sprite with red value 200 (BGRA channel 2). -/
def baseSprite : Img :=
  { h := 1, w := 1, pix := fun _ _ c => if c = 3 then 255 else if c = 2 then 200 else 0 }

/-- An atlas with a single `front`/`closed` entry and one expression label. -/
def atlasExpr : Atlas :=
  { views := [("front", [("closed", "front/mouth_closed.png")])],
    expression_labels := ["happy"] }

/-- File system where the `happy` expression sprite exists but is corrupt
(`cv2.imread` returns `None`) while the base sprite is fine. -/
def fsCorruptExpr : FileSystem := fun p =>
  if p = "assets/happy_front/mouth_closed.png" then .corrupt
  else if p = "assets/front/mouth_closed.png" then .image baseSprite
  else .absent

/-- Same file system except the `happy` expression sprite is missing. -/
def fsAbsentExpr : FileSystem := fun p =>
  if p = "assets/front/mouth_closed.png" then .image baseSprite
  else .absent

/-- A one-frame render call over `atlasExpr` with a timeline that always asks
for the `happy` expression.  The external resize/rotation primitives are the
identity (they are never reached at the identity scale in these scenarios). -/
def cfgExpr (fs : FileSystem) : RenderCfg :=
  { fs := fs, rot := fun img _ => img, resizeFn := fun img _ _ => img,
    width := 2, height := 2, fps := 1, duration_s := 1, crossfade_frames := 0,
    timeline := fun _ => { expression := some "happy" },
    assetsDir := "assets", atlasIdx := some atlasExpr }

/-- Scenario-C configuration with an atlas but no files on disk. -/
def cfgScenarioC : RenderCfg :=
  { fs := fun _ => .absent, rot := fun img _ => img, resizeFn := fun img _ _ => img,
    width := 1, height := 1, fps := 10, duration_s := 1, crossfade_frames := 0,
    timeline := fun _ => {}, assetsDir := "assets", atlasIdx := some atlasExpr }

/-- Scenario-C parameters but with no atlas configured at all. -/
def cfgNoAtlas : RenderCfg :=
  { fs := fun _ => .absent, rot := fun img _ => img, resizeFn := fun img _ _ => img,
    width := 1, height := 1, fps := 10, duration_s := 1, crossfade_frames := 0,
    timeline := fun _ => {}, assetsDir := "", atlasIdx := none }

/-- Atlas with an expression-label list for the C2 witness. -/
def atlasLabels : Atlas :=
  { views := [("front", [("closed", "front/mouth_closed.png")])],
    expression_labels := ["happy"] }

/-- Atlas whose `expression_labels` list is empty (C2 counterexample). -/
def atlasNoLabels : Atlas :=
  { views := [("front", [("closed", "front/mouth_closed.png")])] }

/-- Scenario-B atlas: no `right30` view, explicit `fallback` to front/closed. -/
def atlasScenarioB : Atlas :=
  { views := [("front", [("closed", "front/mouth_closed.png")])],
    fallback_view := some "front", fallback_mouth := some "closed" }

/-- A 1×1 opaque destination pixel (black, alpha 255). -/
def dstPixel : Img := { h := 1, w := 1, pix := fun _ _ c => if c = 3 then 255 else 0 }

/-- A 1×1 sprite with colour value 1 and alpha 128 (C8 counterexample). -/
def srcHalfAlpha : Img := { h := 1, w := 1, pix := fun _ _ c => if c = 3 then 128 else 1 }

/-- A 2×2 sprite that is fully transparent everywhere. -/
def srcTransparent : Img := { h := 2, w := 2, pix := fun _ _ c => if c = 3 then 0 else 37 }

/-! ## Helper lemmas -/

/-- `fps // 2 or 1` (Python) agrees with `max(1, fps // 2)`. -/
theorem fps_half_or_one (fps : ℕ) :
    (if fps / 2 = 0 then 1 else fps / 2) = max 1 (fps / 2) := by
  rcases Nat.eq_zero_or_pos (fps / 2) with h | h
  · simp [h]
  · rw [if_neg (Nat.pos_iff_ne_zero.mp h)]
    omega

/-- `_select_view` only ever returns one of the three buckets. -/
theorem select_view_mem (yaw : ℚ) (rules : ViewRules) :
    select_view yaw rules = "front" ∨ select_view yaw rules = "left30" ∨
    select_view yaw rules = "right30" := by
  simp only [select_view]
  split_ifs <;> simp

/-- When the base lookup is falsy, `_resolve_base_sprite_path` reports
`used_fallback = True`. -/
theorem resolve_falsy_used_fallback (atlas : Atlas) (view mouth : String)
    (h : optTruthy (resolve_base_sprite_path atlas view mouth).1 = false) :
    (resolve_base_sprite_path atlas view mouth).2 = true := by
  simp only [resolve_base_sprite_path] at h ⊢
  split_ifs at h ⊢ with h1
  · exact absurd h (by simp [h1])
  · rfl

/-- `derive_expression_path` returns the base path whenever the label list is
nonempty and the effective expression label is not a member. -/
theorem derive_not_member (atlas : Atlas) (view mouth : String)
    (eo : Option String) (base : String)
    (h1 : atlas.expression_labels.map pyLower ≠ [])
    (h2 : pyLower (pyOr eo (pyLower (atlas.expression_default.getD "normal"))) ∉
      atlas.expression_labels.map pyLower) :
    derive_expression_path atlas view mouth eo base = base := by
  unfold derive_expression_path
  by_cases h0 : pyLower (pyOr eo (pyLower (atlas.expression_default.getD "normal"))) = "normal" ∨
      pyLower (pyOr eo (pyLower (atlas.expression_default.getD "normal"))) = ""
  · simp only [if_pos h0]
  · simp only [if_neg h0, if_pos (And.intro h1 h2)]

/-- Extensionality for images. -/
theorem Img_ext (a b : Img) (hh : a.h = b.h) (hw : a.w = b.w)
    (hp : ∀ y x c, a.pix y x c = b.pix y x c) : a = b := by
  obtain ⟨ah, aw, ap⟩ := a
  obtain ⟨bh, bw, bp⟩ := b
  simp only at hh hw hp
  subst hh hw
  have hfun : ap = bp := by
    funext y x c
    exact hp y x c
  rw [hfun]

/-- `toU8` is the identity on values that are already 8-bit. -/
theorem toU8_coe (v : U8) : toU8 ((v.val : ℚ)) = v := by
  unfold toU8
  apply Fin.ext
  have h1 : ((v.val : ℚ)).floor = (v.val : ℤ) := by
    rw [Rat.floor_def', ← Rat.floor_def, Int.floor_natCast]
  simp [h1, Nat.mod_eq_of_lt v.isLt]

/-! ## Claims -/

/-- Claim C6 is false as stated: with a negative configured threshold
(`thr_front = -5`) and `yaw = 0` we have `yaw > thr`, yet `_select_view`
returns `"left30"`, not `"right30"` (the code tests `abs(yaw) <= thr` first
and then `yaw > 0`, not `yaw > thr`). -/
theorem c6_counterexample :
    (0 : ℚ) > -5 ∧
    select_view 0 { is_dict := true, thr_front := some (-5), has_buckets := false } =
      "left30" ∧
    ("left30" : String) ≠ "right30" := by decide

/-- Claim C6 (amended: the configured threshold must be nonnegative, which
makes the three claimed cases exhaustive and mutually consistent): for rules
without a bucket scheme and `thr = thr_front` (default 16), `_select_view`
returns `front` when `|yaw| ≤ thr`, `right30` when `yaw > thr` and `left30`
when `yaw < -thr`.  The function is a pure Lean function, hence deterministic
and side-effect free. -/
theorem c6_view_selector_buckets (yaw thr : ℚ) (rules : ViewRules)
    (hd : rules.is_dict = true) (hb : rules.has_buckets = false)
    (ht : rules.thr_front.getD 16 = thr) (h0 : 0 ≤ thr) :
    (|yaw| ≤ thr → select_view yaw rules = "front") ∧
    (yaw > thr → select_view yaw rules = "right30") ∧
    (yaw < -thr → select_view yaw rules = "left30") := by
  simp only [select_view, hd, hb, ht, Bool.not_true, Bool.not_false, Bool.false_or, if_true]
  refine ⟨fun h => by rw [if_pos h], fun h => ?_, fun h => ?_⟩
  · rw [if_neg (by have := le_abs_self yaw; simp; linarith), if_pos (by linarith)]
  · rw [if_neg (by have := neg_abs_le yaw; simp; linarith)]
    rw [if_neg (by linarith)]

/-- Witness for C6 at `yaw = 20`, `thr = 16`. -/
theorem c6_witness :
    (0 : ℚ) ≤ 16 ∧
    ((|(20 : ℚ)| ≤ 16 →
        select_view 20 { is_dict := true, thr_front := some 16, has_buckets := false } =
          "front") ∧
     ((20 : ℚ) > 16 →
        select_view 20 { is_dict := true, thr_front := some 16, has_buckets := false } =
          "right30") ∧
     ((20 : ℚ) < -16 →
        select_view 20 { is_dict := true, thr_front := some 16, has_buckets := false } =
          "left30")) :=
  ⟨by decide, c6_view_selector_buckets 20 16 _ rfl rfl rfl (by decide)⟩

/-- Claim C5: when the atlas lacks the requested `(view, mouth)` entry but has
one for the configured fallback pair, `_resolve_base_sprite_path` returns the
fallback pair's path with `used_fallback = true`; and `_select_view` buckets
`yaw = 20` with `thr_front = 16` to `right30`. -/
theorem c5_fallback_pair_resolution (atlas : Atlas) (view mouth p : String)
    (h1 : viewsLookup atlas.views view mouth = none)
    (h2 : viewsLookup atlas.views (atlas.fallback_view.getD "front")
        (normalize_mouth (atlas.fallback_mouth.getD "closed")) = some p) :
    resolve_base_sprite_path atlas view mouth = (some p, true) ∧
    select_view 20 { is_dict := true, thr_front := some 16, has_buckets := false } =
      "right30" := by
  constructor
  · simp only [resolve_base_sprite_path, h1]
    simp [optTruthy, h2]
  · decide

/-- Witness for C5: the full Scenario-B atlas. -/
theorem c5_witness :
    viewsLookup atlasScenarioB.views "right30" "closed" = none ∧
    viewsLookup atlasScenarioB.views (atlasScenarioB.fallback_view.getD "front")
      (normalize_mouth (atlasScenarioB.fallback_mouth.getD "closed")) =
      some "front/mouth_closed.png" ∧
    (resolve_base_sprite_path atlasScenarioB "right30" "closed" =
        (some "front/mouth_closed.png", true) ∧
      select_view 20 { is_dict := true, thr_front := some 16, has_buckets := false } =
        "right30") :=
  ⟨by decide, by decide,
    c5_fallback_pair_resolution atlasScenarioB "right30" "closed" "front/mouth_closed.png"
      (by decide) (by decide)⟩

/-- Claim C2 is false for an atlas whose `expression_labels` list is empty:
`"happy"` is (vacuously) not a member, yet the derived path is the expression
directory path, not the `expression=None` result — the source's
`if labels and expr not in labels` guard is skipped for an empty list. -/
theorem c2_counterexample :
    pyLower "happy" ∉ atlasNoLabels.expression_labels.map pyLower ∧
    derive_expression_path atlasNoLabels "front" "closed" (some "happy")
        "front/mouth_closed.png" = "happy_front/mouth_closed.png" ∧
    derive_expression_path atlasNoLabels "front" "closed" none
        "front/mouth_closed.png" = "front/mouth_closed.png" ∧
    ("happy_front/mouth_closed.png" : String) ≠ "front/mouth_closed.png" := by
  decide

/-- Claim C2 (amended: `expression_labels` must be nonempty, and the default
expression must itself resolve to the base path — it does whenever its
lowercase form is `normal`, empty, or not a member): a non-member expression
resolves to the same path as `expression = None`. -/
theorem c2_unknown_expression_resolves_like_none (atlas : Atlas)
    (view mouth base_path_rel e : String)
    (hne : atlas.expression_labels.map pyLower ≠ [])
    (hmem : pyLower e ∉ atlas.expression_labels.map pyLower)
    (hdef : pyLower (pyLower (atlas.expression_default.getD "normal")) = "normal" ∨
        pyLower (pyLower (atlas.expression_default.getD "normal")) = "" ∨
        pyLower (pyLower (atlas.expression_default.getD "normal")) ∉
          atlas.expression_labels.map pyLower) :
    derive_expression_path atlas view mouth (some e) base_path_rel =
      derive_expression_path atlas view mouth none base_path_rel := by
  by_cases h0 : e = ""
  · subst h0
    simp [derive_expression_path, pyOr]
  · have hL : derive_expression_path atlas view mouth (some e) base_path_rel =
        base_path_rel := by
      refine derive_not_member atlas view mouth (some e) base_path_rel hne ?_
      simpa [pyOr, h0] using hmem
    have hR : derive_expression_path atlas view mouth none base_path_rel =
        base_path_rel := by
      rcases hdef with h | h | h
      · simp only [derive_expression_path, pyOr]
        rw [if_pos (Or.inl h)]
      · simp only [derive_expression_path, pyOr]
        rw [if_pos (Or.inr h)]
      · refine derive_not_member atlas view mouth none base_path_rel hne ?_
        simpa [pyOr] using h
    rw [hL, hR]

/-- Witness for C2: `"angry"` is not among the labels `["happy"]`, so it
resolves exactly like `expression = None`. -/
theorem c2_witness :
    atlasLabels.expression_labels.map pyLower ≠ [] ∧
    pyLower "angry" ∉ atlasLabels.expression_labels.map pyLower ∧
    derive_expression_path atlasLabels "front" "closed" (some "angry")
        "front/mouth_a.png" =
      derive_expression_path atlasLabels "front" "closed" none "front/mouth_a.png" :=
  ⟨by decide, by decide,
    c2_unknown_expression_resolves_like_none atlasLabels "front" "closed"
      "front/mouth_a.png" "angry" (by decide) (by decide) (Or.inl (by decide))⟩

/-- Claim C7: with `enabled = false`, or with the combined angle
`roll_coef*roll + yaw_coef*yaw + pitch_coef*pitch` below `1e-3` in magnitude,
the pose transform returns the input image itself (in the embedding literally
the same value, so the caller's buffer is untouched); a non-dict config
(`none`) is likewise a no-op. -/
theorem c7_pose_transform_identity (rot : Img → ℚ → Img) (cfg : TransformCfg)
    (img : Img) (yaw pitch roll : ℚ)
    (h : cfg.enabled = false ∨
      |cfg.roll_coef * roll + cfg.yaw_coef * yaw + cfg.pitch_coef * pitch| <
        1 / 1000) :
    make_pose_transform rot (some cfg) img yaw pitch roll = img ∧
    make_pose_transform rot none img yaw pitch roll = img := by
  refine ⟨?_, rfl⟩
  rcases h with h | h
  · simp [make_pose_transform, h]
  · by_cases he : cfg.enabled
    · simp only [make_pose_transform, he, Bool.not_true, Bool.false_eq_true,
        if_false, if_pos h]
    · simp [make_pose_transform, he]

/-- Witness for C7: a disabled config on a concrete image, with a rotation
primitive that would visibly change the image if it were ever called. -/
theorem c7_witness :
    ({ enabled := false, roll_coef := 1, yaw_coef := 0, pitch_coef := 0 } :
        TransformCfg).enabled = false ∧
    (make_pose_transform (fun _ _ => solid_bg 9 9)
        (some { enabled := false, roll_coef := 1, yaw_coef := 0, pitch_coef := 0 })
        (solid_bg 2 3) 45 45 45 = solid_bg 2 3 ∧
      make_pose_transform (fun _ _ => solid_bg 9 9) none (solid_bg 2 3) 45 45 45 =
        solid_bg 2 3) :=
  ⟨rfl,
    c7_pose_transform_identity (fun _ _ => solid_bg 9 9)
      { enabled := false, roll_coef := 1, yaw_coef := 0, pitch_coef := 0 }
      (solid_bg 2 3) 45 45 45 (Or.inl rfl)⟩

/-- Any pixel `_alpha_paste` changes lies inside the canvas on a colour
channel, and its value is the source-over blend (truncated to 8 bit) read from
in-bounds source coordinates. -/
theorem alpha_paste_pix_changed (canvas src : Img) (cx cy : ℤ) (y x c : ℕ)
    (hne : (alpha_paste canvas src cx cy).pix y x c ≠ canvas.pix y x c) :
    y < canvas.h ∧ x < canvas.w ∧ c < 3 ∧
    ∃ sy sx, sy < src.h ∧ sx < src.w ∧
      (alpha_paste canvas src cx cy).pix y x c =
        toU8 (((src.pix sy sx 3).val : ℚ) / 255 * ((src.pix sy sx c).val : ℚ) +
          (1 - ((src.pix sy sx 3).val : ℚ) / 255) * ((canvas.pix y x c).val : ℚ)) := by
  simp only [alpha_paste] at hne ⊢
  by_cases htop :
      min ((src.w : ℤ) - max 0 (-(cx - (src.w : ℤ) / 2)))
          ((canvas.w : ℤ) - max 0 (cx - (src.w : ℤ) / 2)) ≤ 0 ∨
      min ((src.h : ℤ) - max 0 (-(cy - (src.h : ℤ) / 2)))
          ((canvas.h : ℤ) - max 0 (cy - (src.h : ℤ) / 2)) ≤ 0
  · rw [if_pos htop] at hne
    exact absurd rfl hne
  · simp only [if_neg htop] at hne ⊢
    by_cases hcond :
        max 0 (cy - (src.h : ℤ) / 2) ≤ (y : ℤ) ∧
        (y : ℤ) < max 0 (cy - (src.h : ℤ) / 2) +
          min ((src.h : ℤ) - max 0 (-(cy - (src.h : ℤ) / 2)))
            ((canvas.h : ℤ) - max 0 (cy - (src.h : ℤ) / 2)) ∧
        max 0 (cx - (src.w : ℤ) / 2) ≤ (x : ℤ) ∧
        (x : ℤ) < max 0 (cx - (src.w : ℤ) / 2) +
          min ((src.w : ℤ) - max 0 (-(cx - (src.w : ℤ) / 2)))
            ((canvas.w : ℤ) - max 0 (cx - (src.w : ℤ) / 2)) ∧
        c < 3
    · refine ⟨?_, ?_, hcond.2.2.2.2, ?_⟩
      · generalize hY : cy - (src.h : ℤ) / 2 = Y0 at hcond htop
        omega
      · generalize hX : cx - (src.w : ℤ) / 2 = X0 at hcond htop
        omega
      · refine ⟨((y : ℤ) - max 0 (cy - (src.h : ℤ) / 2) +
            max 0 (-(cy - (src.h : ℤ) / 2))).toNat,
          ((x : ℤ) - max 0 (cx - (src.w : ℤ) / 2) +
            max 0 (-(cx - (src.w : ℤ) / 2))).toNat, ?_, ?_, ?_⟩
        · generalize hY : cy - (src.h : ℤ) / 2 = Y0 at hcond htop
          omega
        · generalize hX : cx - (src.w : ℤ) / 2 = X0 at hcond htop
          omega
        · rw [if_pos hcond]
    · rw [if_neg hcond] at hne
      exact absurd rfl hne

/-- Claim C8 is false on the words "rounded to 8-bit" if rounding means
round-to-nearest: for a source pixel with colour value 1 and alpha 128 over a
black destination, the exact blend is `128/255 ≈ 0.502`; `astype(np.uint8)`
truncates it to 0, while rounding would give 1. -/
theorem c8_counterexample :
    (alpha_paste dstPixel srcHalfAlpha 0 0).pix 0 0 0 = 0 ∧
    roundedBlend_spec (((srcHalfAlpha.pix 0 0 3).val : ℚ) / 255)
        ((srcHalfAlpha.pix 0 0 0).val : ℚ) ((dstPixel.pix 0 0 0).val : ℚ) = 1 ∧
    ((0 : U8) ≠ (1 : U8)) := by
  refine ⟨by decide, by decide, by decide⟩

/-- Claim C8 (amended: the float blend is *truncated* toward zero to 8 bits,
not rounded to nearest): every changed pixel carries the blend
`src*alpha + dst*(1-alpha)` (alpha = source alpha / 255) truncated to 8 bits;
the destination alpha channel is never written; and pasting a fully
transparent sprite leaves the canvas unchanged. -/
theorem c8_alpha_blend_truncated (canvas src : Img) (cx cy : ℤ) :
    (∀ y x, (alpha_paste canvas src cx cy).pix y x 3 = canvas.pix y x 3) ∧
    (∀ y x c, (alpha_paste canvas src cx cy).pix y x c ≠ canvas.pix y x c →
      ∃ sy sx, sy < src.h ∧ sx < src.w ∧
        (alpha_paste canvas src cx cy).pix y x c =
          toU8 (((src.pix sy sx 3).val : ℚ) / 255 * ((src.pix sy sx c).val : ℚ) +
            (1 - ((src.pix sy sx 3).val : ℚ) / 255) *
              ((canvas.pix y x c).val : ℚ))) ∧
    ((∀ sy, sy < src.h → ∀ sx, sx < src.w → src.pix sy sx 3 = 0) →
      alpha_paste canvas src cx cy = canvas) := by
  refine ⟨?_, ?_, ?_⟩
  · intro y x
    by_contra hne
    exact absurd (alpha_paste_pix_changed canvas src cx cy y x 3 hne).2.2.1
      (by omega)
  · intro y x c hne
    exact (alpha_paste_pix_changed canvas src cx cy y x c hne).2.2.2
  · intro htr
    refine Img_ext _ _ ?_ ?_ ?_
    · simp only [alpha_paste]
      split_ifs <;> rfl
    · simp only [alpha_paste]
      split_ifs <;> rfl
    · intro y x c
      by_contra hp
      obtain ⟨-, -, -, sy, sx, hsy, hsx, heq⟩ :=
        alpha_paste_pix_changed canvas src cx cy y x c hp
      apply hp
      rw [heq, htr sy hsy sx hsx]
      norm_num
      exact toU8_coe _

/-- Witness for C8: pasting the fully transparent fixture sprite leaves the
4×4 background unchanged. -/
theorem c8_witness :
    (∀ sy, sy < srcTransparent.h → ∀ sx, sx < srcTransparent.w →
      srcTransparent.pix sy sx 3 = 0) ∧
    alpha_paste (solid_bg 4 4) srcTransparent 1 1 = solid_bg 4 4 :=
  ⟨by decide,
    (c8_alpha_blend_truncated (solid_bg 4 4) srcTransparent 1 1).2.2 (by decide)⟩

/-- Claim C9: `_alpha_paste` clips on all four edges — every pixel it changes
is inside the canvas, on a colour channel, and is computed from in-bounds
source coordinates — and with no overlap between the placement rectangle and
the canvas it returns the canvas unchanged (and, being total, raises
nothing). -/
theorem c9_paste_clipping_safety (canvas src : Img) (cx cy : ℤ) :
    (∀ y x c, (alpha_paste canvas src cx cy).pix y x c ≠ canvas.pix y x c →
      y < canvas.h ∧ x < canvas.w ∧ c < 3 ∧
      ∃ sy sx, sy < src.h ∧ sx < src.w) ∧
    ((cx - (src.w : ℤ) / 2 + src.w ≤ 0 ∨ (canvas.w : ℤ) ≤ cx - (src.w : ℤ) / 2 ∨
      cy - (src.h : ℤ) / 2 + src.h ≤ 0 ∨ (canvas.h : ℤ) ≤ cy - (src.h : ℤ) / 2) →
      alpha_paste canvas src cx cy = canvas) := by
  constructor
  · intro y x c hne
    obtain ⟨hy, hx, hc, sy, sx, hsy, hsx, -⟩ :=
      alpha_paste_pix_changed canvas src cx cy y x c hne
    exact ⟨hy, hx, hc, sy, sx, hsy, hsx⟩
  · intro hout
    simp only [alpha_paste]
    rw [if_pos]
    generalize hX : cx - (src.w : ℤ) / 2 = X0 at hout ⊢
    generalize hY : cy - (src.h : ℤ) / 2 = Y0 at hout ⊢
    omega

/-- Witness for C9: a 2×2 sprite centred far outside a 4×4 canvas causes no
change. -/
theorem c9_witness :
    ((solid_bg 4 4).w : ℤ) ≤ 50 - ((srcTransparent.w : ℤ) / 2) ∧
    alpha_paste (solid_bg 4 4) srcTransparent 50 7 = solid_bg 4 4 :=
  ⟨by decide,
    (c9_paste_clipping_safety (solid_bg 4 4) srcTransparent 50 7).2
      (Or.inr (Or.inl (by decide)))⟩

/-- Claim C3: with `crossfade_frames > 0`, at trigger indices
(`i % max(1, fps//2) == 0`, the Python code's `fps // 2 or 1` divisor) with a
previous frame present, exactly `crossfade_frames` frames are emitted, the
`k`-th being the blend of previous and current frame with alpha
`(k+1)/crossfade_frames`, and the last one is the current frame
pixel-for-pixel; at any other index exactly the current frame is written; in
both cases the previous-frame buffer becomes the current frame. -/
theorem c3_crossfade_emission (crossfade_frames fps i : ℕ) (prev frame : Img)
    (hcf : 0 < crossfade_frames) :
    (i % max 1 (fps / 2) = 0 →
      (writeStep crossfade_frames fps i (some prev) frame).1.length =
        crossfade_frames ∧
      (∀ k, k < crossfade_frames →
        (writeStep crossfade_frames fps i (some prev) frame).1[k]? =
          some (cvtColor_BGRA2BGR
            (crossfadeBlend prev frame (((k : ℚ) + 1) / (crossfade_frames : ℚ))))) ∧
      (∀ y x c,
        ((writeStep crossfade_frames fps i (some prev) frame).1.getD
            (crossfade_frames - 1) frame).pix y x c =
          (cvtColor_BGRA2BGR frame).pix y x c) ∧
      (writeStep crossfade_frames fps i (some prev) frame).2 = some frame) ∧
    (i % max 1 (fps / 2) ≠ 0 →
      writeStep crossfade_frames fps i (some prev) frame =
        ([cvtColor_BGRA2BGR frame], some frame)) := by
  constructor
  · intro h
    rw [← fps_half_or_one] at h
    simp only [writeStep, if_pos (And.intro hcf h)]
    refine ⟨by rw [List.length_map, List.length_range], fun k hk => ?_,
      fun y x c => ?_, trivial⟩
    · rw [List.getElem?_map, List.getElem?_range hk]
      rfl
    · have hlt : crossfade_frames - 1 < crossfade_frames := by omega
      have hget : ((List.range crossfade_frames).map fun (k : ℕ) =>
          cvtColor_BGRA2BGR
            (crossfadeBlend prev frame
              (((k : ℚ) + 1) / (crossfade_frames : ℚ)))).getD
            (crossfade_frames - 1) frame =
          cvtColor_BGRA2BGR (crossfadeBlend prev frame
            ((((crossfade_frames - 1 : ℕ) : ℚ) + 1) / (crossfade_frames : ℚ))) := by
        rw [List.getD_eq_getElem?_getD, List.getElem?_map, List.getElem?_range hlt]
        rfl
      rw [hget]
      have hone : (((crossfade_frames - 1 : ℕ) : ℚ) + 1) / (crossfade_frames : ℚ) = 1 := by
        have h1 : (1 : ℕ) ≤ crossfade_frames := hcf
        rw [Nat.cast_sub h1, Nat.cast_one, sub_add_cancel]
        exact div_self (by exact_mod_cast Nat.pos_iff_ne_zero.mp hcf)
      rw [hone]
      simp only [cvtColor_BGRA2BGR, crossfadeBlend]
      by_cases hc : c < 3
      · rw [if_pos hc, if_pos hc]
        rw [show (1 : ℚ) - 1 = 0 by ring, mul_zero, mul_one, zero_add]
        exact toU8_coe _
      · rw [if_neg hc, if_neg hc]
  · intro h
    rw [← fps_half_or_one] at h
    simp only [writeStep]
    rw [if_neg (by tauto)]

/-- Witness for C3 at `crossfade_frames = 3`, `fps = 10`, trigger index 0. -/
theorem c3_witness :
    0 < 3 ∧
    ((0 % max 1 (10 / 2) = 0 →
      (writeStep 3 10 0 (some (solid_bg 1 1)) dstPixel).1.length = 3 ∧
      (∀ k : ℕ, k < 3 →
        (writeStep 3 10 0 (some (solid_bg 1 1)) dstPixel).1[k]? =
          some (cvtColor_BGRA2BGR
            (crossfadeBlend (solid_bg 1 1) dstPixel
              (((k : ℚ) + 1) / ((3 : ℕ) : ℚ))))) ∧
      (∀ y x c,
        ((writeStep 3 10 0 (some (solid_bg 1 1)) dstPixel).1.getD (3 - 1)
            dstPixel).pix y x c =
          (cvtColor_BGRA2BGR dstPixel).pix y x c) ∧
      (writeStep 3 10 0 (some (solid_bg 1 1)) dstPixel).2 = some dstPixel) ∧
    (¬ 0 % max 1 (10 / 2) = 0 →
      writeStep 3 10 0 (some (solid_bg 1 1)) dstPixel =
        ([cvtColor_BGRA2BGR dstPixel], some dstPixel))) :=
  ⟨by decide, c3_crossfade_emission 3 10 0 (solid_bg 1 1) dstPixel (by decide)⟩

/-- With `crossfade_frames = 0` the write step always emits exactly the
current frame. -/
theorem writeStep_zero_fst (fps i : ℕ) (prev : Option Img) (frame : Img) :
    (writeStep 0 fps i prev frame).1 = [cvtColor_BGRA2BGR frame] := by
  cases prev <;> simp [writeStep]

/-- The write step always updates the previous-frame buffer to the current
frame. -/
theorem writeStep_snd (crossfade_frames fps i : ℕ) (prev : Option Img) (frame : Img) :
    (writeStep crossfade_frames fps i prev frame).2 = some frame := by
  cases prev
  · rfl
  · simp only [writeStep]
    split_ifs <;> rfl

/-- Each loop iteration with `crossfade_frames = 0` writes exactly one frame. -/
theorem renderFrame_written_length (cfg : RenderCfg) (st : RenderState) (i : ℕ)
    (h3 : cfg.crossfade_frames = 0) :
    (renderFrame cfg st i).written.length = st.written.length + 1 := by
  rcases ha : cfg.atlasIdx with _ | atlas <;>
    simp [renderFrame, ha, h3, writeStep_zero_fst]

/-- Each loop iteration with an atlas present increments exactly one view
counter. -/
theorem renderFrame_viewsSum (cfg : RenderCfg) (st : RenderState) (i : ℕ)
    (atlas : Atlas) (h4 : cfg.atlasIdx = some atlas) :
    viewsSum (renderFrame cfg st i).viewsCount = viewsSum st.viewsCount + 1 := by
  have hv := select_view_mem (cfg.timeline (1000 * i / cfg.fps)).yaw atlas.view_rules
  simp only [renderFrame, h4]
  rcases hv with h | h | h <;> rw [h] <;> simp [viewsSum] <;> ring

/-- The frame loop writes `n` frames in `n` iterations when
`crossfade_frames = 0`. -/
theorem render_loop_len (cfg : RenderCfg) (h3 : cfg.crossfade_frames = 0) :
    ∀ (n : ℕ) (st : RenderState),
      ((List.range n).foldl (renderFrame cfg) st).written.length =
        st.written.length + n := by
  intro n
  induction n with
  | zero => intro st; simp
  | succ k ih =>
      intro st
      rw [List.range_succ, List.foldl_append, List.foldl_cons, List.foldl_nil]
      rw [renderFrame_written_length cfg _ _ h3, ih st]
      ring

/-- The frame loop adds `n` to the total view count in `n` iterations when an
atlas is present. -/
theorem render_loop_sum (cfg : RenderCfg) (atlas : Atlas)
    (h4 : cfg.atlasIdx = some atlas) :
    ∀ (n : ℕ) (st : RenderState),
      viewsSum (((List.range n).foldl (renderFrame cfg) st).viewsCount) =
        viewsSum st.viewsCount + n := by
  intro n
  induction n with
  | zero => intro st; simp
  | succ k ih =>
      intro st
      rw [List.range_succ, List.foldl_append, List.foldl_cons, List.foldl_nil]
      rw [renderFrame_viewsSum cfg _ _ atlas h4, ih st]
      ring

/-- Claim C4 is false as stated when no atlas is configured: the parameters
`duration_s=1, fps=10, crossfade_frames=0` still write 10 frames with
`total_frames = 10`, but no view counter is ever incremented, so the views sum
is 0, not 10. -/
theorem c4_counterexample :
    (render_video cfgNoAtlas).2.total_frames = 10 ∧
    (render_video cfgNoAtlas).1.length = 10 ∧
    viewsSum (render_video cfgNoAtlas).2.views = 0 ∧
    (0 : ℕ) ≠ 10 :=
  ⟨rfl, by decide, by decide, by decide⟩

/-- Claim C4 (amended: an atlas index must be configured, otherwise the view
counters are never touched): with `duration_s=1`, `fps=10`,
`crossfade_frames=0` and an atlas present, exactly 10 frames are written,
`total_frames = 10`, and the view counts sum to 10 — each loop iteration
increments exactly one view counter. -/
theorem c4_scenario_c_with_atlas (cfg : RenderCfg) (atlas : Atlas)
    (h1 : cfg.duration_s = 1) (h2 : cfg.fps = 10) (h3 : cfg.crossfade_frames = 0)
    (h4 : cfg.atlasIdx = some atlas) :
    (render_video cfg).2.total_frames = 10 ∧
    (render_video cfg).1.length = 10 ∧
    viewsSum (render_video cfg).2.views = 10 := by
  have h10 : cfg.duration_s * cfg.fps = 10 := by rw [h1, h2]
  refine ⟨?_, ?_, ?_⟩
  · simp [render_video, h10]
  · simp only [render_video]
    rw [h10, render_loop_len cfg h3 10 {}]
    rfl
  · simp only [render_video]
    rw [h10, render_loop_sum cfg atlas h4 10 {}]
    rfl

/-- Witness for C4 on the concrete Scenario-C configuration. -/
theorem c4_witness :
    cfgScenarioC.duration_s = 1 ∧ cfgScenarioC.fps = 10 ∧
    cfgScenarioC.crossfade_frames = 0 ∧ cfgScenarioC.atlasIdx = some atlasExpr ∧
    ((render_video cfgScenarioC).2.total_frames = 10 ∧
     (render_video cfgScenarioC).1.length = 10 ∧
     viewsSum (render_video cfgScenarioC).2.views = 10) :=
  ⟨rfl, rfl, rfl, rfl,
    c4_scenario_c_with_atlas cfgScenarioC atlasExpr rfl rfl rfl rfl⟩

/-- When no sprite can be obtained (base path falsy, or both candidate loads
fail with `FileNotFoundError`), `spriteStep` yields the untouched background
frame and `used_fallback = true`. -/
theorem spriteStep_no_asset (cfg : RenderCfg) (atlas : Atlas) (frame0 : Img)
    (view mouth : String) (expression : Option String) (yaw pitch roll : ℚ)
    (hmiss :
      optTruthy (resolve_base_sprite_path atlas view mouth).1 = false ∨
      (load_rgba cfg.fs (pathJoin cfg.assetsDir
          (derive_expression_path atlas view mouth expression
            ((resolve_base_sprite_path atlas view mouth).1.getD ""))) =
        .error (.fileNotFound (pathJoin cfg.assetsDir
          (derive_expression_path atlas view mouth expression
            ((resolve_base_sprite_path atlas view mouth).1.getD "")))) ∧
       load_rgba cfg.fs (pathJoin cfg.assetsDir
          ((resolve_base_sprite_path atlas view mouth).1.getD "")) =
        .error (.fileNotFound (pathJoin cfg.assetsDir
          ((resolve_base_sprite_path atlas view mouth).1.getD ""))))) :
    spriteStep cfg atlas frame0 view mouth expression yaw pitch roll =
      (frame0, true) := by
  by_cases hb : optTruthy (resolve_base_sprite_path atlas view mouth).1 = true
  · rcases hmiss with h | ⟨h1, h2⟩
    · rw [hb] at h
      exact absurd h (by simp)
    · simp only [spriteStep, if_pos hb]
      rw [h1]
      by_cases he : derive_expression_path atlas view mouth expression
          ((resolve_base_sprite_path atlas view mouth).1.getD "") =
          (resolve_base_sprite_path atlas view mouth).1.getD ""
      · rw [if_neg (not_not_intro he)]
      · rw [if_pos he, h2]
  · have h2 := resolve_falsy_used_fallback atlas view mouth
      (Bool.eq_false_iff.mpr (fun hx => hb hx))
    simp only [spriteStep, if_neg hb]
    rw [h2]
    rfl

/-- Claim C10: a frame for which no sprite asset can be obtained — the base
path resolves falsy, or every candidate file is absent (both loads raise
`FileNotFoundError`) — is still rendered: the background-only frame is
written, `fallback_frames` is incremented, `first_fallback_ms` is set to the
frame's `t_ms` when previously unset, the previous-frame buffer is updated,
and (the embedding being total, every load sitting under the `try/except`)
no error reaches the caller. -/
theorem c10_missing_assets_absorbed (cfg : RenderCfg) (atlas : Atlas)
    (st : RenderState) (i : ℕ) (h4 : cfg.atlasIdx = some atlas)
    (h5 : cfg.hook = none)
    (hmiss :
      optTruthy (resolve_base_sprite_path atlas
        (select_view (cfg.timeline (1000 * i / cfg.fps)).yaw atlas.view_rules)
        (normalize_mouth ((cfg.timeline (1000 * i / cfg.fps)).mouth.getD
          "closed"))).1 = false ∨
      (load_rgba cfg.fs (pathJoin cfg.assetsDir
          (derive_expression_path atlas
            (select_view (cfg.timeline (1000 * i / cfg.fps)).yaw atlas.view_rules)
            (normalize_mouth ((cfg.timeline (1000 * i / cfg.fps)).mouth.getD
              "closed"))
            (cfg.timeline (1000 * i / cfg.fps)).expression
            ((resolve_base_sprite_path atlas
              (select_view (cfg.timeline (1000 * i / cfg.fps)).yaw
                atlas.view_rules)
              (normalize_mouth ((cfg.timeline (1000 * i / cfg.fps)).mouth.getD
                "closed"))).1.getD ""))) =
        .error (.fileNotFound (pathJoin cfg.assetsDir
          (derive_expression_path atlas
            (select_view (cfg.timeline (1000 * i / cfg.fps)).yaw atlas.view_rules)
            (normalize_mouth ((cfg.timeline (1000 * i / cfg.fps)).mouth.getD
              "closed"))
            (cfg.timeline (1000 * i / cfg.fps)).expression
            ((resolve_base_sprite_path atlas
              (select_view (cfg.timeline (1000 * i / cfg.fps)).yaw
                atlas.view_rules)
              (normalize_mouth ((cfg.timeline (1000 * i / cfg.fps)).mouth.getD
                "closed"))).1.getD "")))) ∧
       load_rgba cfg.fs (pathJoin cfg.assetsDir
          ((resolve_base_sprite_path atlas
            (select_view (cfg.timeline (1000 * i / cfg.fps)).yaw atlas.view_rules)
            (normalize_mouth ((cfg.timeline (1000 * i / cfg.fps)).mouth.getD
              "closed"))).1.getD "")) =
        .error (.fileNotFound (pathJoin cfg.assetsDir
          ((resolve_base_sprite_path atlas
            (select_view (cfg.timeline (1000 * i / cfg.fps)).yaw atlas.view_rules)
            (normalize_mouth ((cfg.timeline (1000 * i / cfg.fps)).mouth.getD
              "closed"))).1.getD ""))))) :
    (renderFrame cfg st i).fallbackFrames = st.fallbackFrames + 1 ∧
    (renderFrame cfg st i).firstFallbackMs =
      some (st.firstFallbackMs.getD (1000 * i / cfg.fps)) ∧
    (renderFrame cfg st i).written = st.written ++
      (writeStep cfg.crossfade_frames cfg.fps i st.prevFrame
        (solid_bg cfg.width cfg.height)).1 ∧
    (renderFrame cfg st i).prevFrame = some (solid_bg cfg.width cfg.height) := by
  simp only [renderFrame, h4, h5, applyHook]
  rw [spriteStep_no_asset cfg atlas _ _ _ _ _ _ _ hmiss]
  refine ⟨by simp, ?_, by simp, ?_⟩
  · cases hst : st.firstFallbackMs <;> simp [hst]
  · simp [writeStep_snd]

/-- Witness for C10: Scenario-C configuration whose file system holds no
files at all; at frame 0 the base path resolves but both loads fail. -/
theorem c10_witness :
    load_rgba cfgScenarioC.fs (pathJoin cfgScenarioC.assetsDir
        ((resolve_base_sprite_path atlasExpr
          (select_view (cfgScenarioC.timeline (1000 * 0 / cfgScenarioC.fps)).yaw
            atlasExpr.view_rules)
          (normalize_mouth
            ((cfgScenarioC.timeline (1000 * 0 / cfgScenarioC.fps)).mouth.getD
              "closed"))).1.getD "")) =
      .error (.fileNotFound "assets/front/mouth_closed.png") ∧
    ((renderFrame cfgScenarioC {} 0).fallbackFrames = 1 ∧
     (renderFrame cfgScenarioC {} 0).firstFallbackMs = some 0 ∧
     (renderFrame cfgScenarioC {} 0).written =
       (writeStep cfgScenarioC.crossfade_frames cfgScenarioC.fps 0 none
         (solid_bg 1 1)).1 ∧
     (renderFrame cfgScenarioC {} 0).prevFrame = some (solid_bg 1 1)) :=
  ⟨rfl,
    c10_missing_assets_absorbed cfgScenarioC atlasExpr {} 0 rfl rfl
      (Or.inr ⟨rfl, rfl⟩)⟩

/-- Claim C1 is right about the requirement but the code violates it
(`code_bug`): `_load_rgba` raises `FileNotFoundError` also when the file
exists but `cv2.imread` cannot decode it, so a corrupt sprite is absorbed by
the very fallback chain that is supposed to handle only missing files.  On a
concrete one-frame render whose `happy` expression sprite exists but is
corrupt, the render completes with the base sprite silently substituted: the
whole output (frames and stats) is identical to the render where that file is
simply absent, the frame is counted as a fallback frame, and the substituted
base sprite's red value 200 is visible in the written frame. -/
theorem c1_corrupt_asset_silently_substituted :
    load_rgba fsCorruptExpr "assets/happy_front/mouth_closed.png" =
      .error (.fileNotFound "assets/happy_front/mouth_closed.png") ∧
    render_video (cfgExpr fsCorruptExpr) = render_video (cfgExpr fsAbsentExpr) ∧
    (render_video (cfgExpr fsCorruptExpr)).2.fallback_frames = 1 ∧
    (render_video (cfgExpr fsCorruptExpr)).2.first_fallback_ms = some 0 ∧
    ((render_video (cfgExpr fsCorruptExpr)).1.getD 0 (solid_bg 2 2)).pix 1 1 2 =
      200 :=
  ⟨rfl, rfl, rfl, rfl, by decide⟩

end RenderCore
